import Mathlib

/-!
Verification of the profile-matching backend (`src/app.py`).

The file shallowly embeds the request handlers of `app.py`:

* `analyze_profile` (the Profile Matcher with its three relaxation tiers),
* the upstream-response handling of `generate_plan`,
* the parameter check of `send_email`,
* the feedback-record construction of `submit_feedback`.

Numbers are modelled exactly: Python floats become `ℚ` and Python ints
become `ℤ`.  Python's `str.lower`/`str.upper`/`str.strip` become
`String.toLower`/`String.toUpper`/`String.trim`.  Pandas'
`Series.str.contains` is modelled as literal substring containment
(`List.IsInfix` on the character lists), which agrees with pandas on every
pattern free of regex metacharacters.  Python truthiness of an optional
string (`None` and `""` are falsy) is `pyTruthy`; truthiness of a JSON
value is `JVal.truthy`.  Python exceptions caught by the surrounding
`try`/`except` blocks are modelled with `Except String`.
-/

namespace EdTech

/-- One row of `course_data.csv` (the in-memory catalog `df`). -/
structure CourseRow where
  career_goal : String
  personality_min_gpa : ℚ
  min_budget : ℚ
  max_budget : ℚ
  learning_style : String
  recommended_course : String
  university : String
  country : String
deriving Repr, DecidableEq

/-- Literal substring containment: `needle` occurs contiguously in `hay`.
Embeds `hay.contains(needle)` of pandas `Series.str.contains` (for
metacharacter-free patterns). -/
def strContains (hay needle : String) : Bool :=
  decide (needle.data <:+: hay.data)

/-- Python `str.lower()`: lower-case every character (ASCII case folding,
which covers the catalog and request strings). -/
def pyLower (s : String) : String :=
  String.mk (s.data.map Char.toLower)

/-- Python `str.upper()`: upper-case every character. -/
def pyUpper (s : String) : String :=
  String.mk (s.data.map Char.toUpper)

/-- Python `str.strip()`: drop leading and trailing whitespace. -/
def pyStrip (s : String) : String :=
  String.mk (((s.data.dropWhile Char.isWhitespace).reverse.dropWhile Char.isWhitespace).reverse)

/-- Python's truncating integer conversion `int(q)` on an exact rational:
round toward zero.  For a rational in reduced form `num/den` with
`den > 0` this is exactly `num.tdiv den` (T-division truncates toward
zero); the bridging lemma `truncQ_eq_floor_ceil` below certifies that this
agrees with the floor/ceiling description of truncation. -/
def truncQ (q : ℚ) : ℤ :=
  q.num.tdiv q.den

/-- `min(100, int(gpa * 10))` from line 87 of `app.py`. -/
def matchScore (gpa : ℚ) : ℤ :=
  min 100 (truncQ (gpa * 10))

/-- The applicant profile after the normalisation performed at the top of
`analyze_profile` (lines 60–64): `goal` and `style` are already
lower-cased and stripped, `personality` upper-cased, `gpa` parsed as a
float, `budget` as an int. -/
structure Profile where
  personality : String
  gpa : ℚ
  goal : String
  budget : ℤ
  style : String
deriving Repr, DecidableEq

/-- The body of `run_filter` applied to one row (lines 66–72): the
predicate a catalog row must satisfy, with the two relaxation switches.
The `strict` parameter of the Python function is never read in its body
and is omitted. -/
def rowPasses (p : Profile) ( drop_style relax_budget : Bool) (row : CourseRow) : Bool :=
  strContains (pyLower row.career_goal) p.goal
    && decide (row.personality_min_gpa ≤ p.gpa)
    && (relax_budget
        || (decide (row.min_budget ≤ (p.budget : ℚ)) && decide ((p.budget : ℚ) ≤ row.max_budget)))
    && ( drop_style || (pyLower row.learning_style == p.style))

/-- `run_filter(...)`: keep the catalog rows satisfying the predicate, in
catalog order. -/
def run_filter (catalog : List CourseRow) (p : Profile) ( drop_style relax_budget : Bool) :
    List CourseRow :=
  catalog.filter (rowPasses p drop_style relax_budget)

/-- Lines 74–78 of `app.py`: try the three tiers in order, keep the first
nonempty result (empty if every tier is empty). -/
def matchRows (catalog : List CourseRow) (p : Profile) : List CourseRow :=
  let m1 := run_filter catalog p false false
  if m1.isEmpty then
    let m2 := run_filter catalog p true false
    if m2.isEmpty then run_filter catalog p true true else m2
  else m1

/-- The JSON success payload of `/analyze-profile` (lines 83–88). -/
structure MatchResponse where
  recommended_courses : List String
  top_universities : List String
  recommended_countries : List String
  match_score : ℤ
deriving Repr, DecidableEq

/-- Lines 82–88: `matched.head(3)` projected onto the three columns, plus
the derived score. -/
def projectTop (rows : List CourseRow) (gpa : ℚ) : MatchResponse :=
  let top := rows.take 3
  { recommended_courses := top.map (fun r => r.recommended_course)
    top_universities := top.map (fun r => r.university)
    recommended_countries := top.map (fun r => r.country)
    match_score := matchScore gpa }

/-- Domain-level failure of the matcher: all three tiers empty. -/
inductive AnalyzeError where
  | noMatchFound
deriving Repr, DecidableEq

/-- HTTP status attached to each matcher failure (line 80: 404). -/
def AnalyzeError.status : AnalyzeError → Nat
  | .noMatchFound => 404

/-- Lines 74–88 of `app.py` after input normalisation: run the tiers,
fail with the no-match condition when everything is empty, otherwise
project the first three rows. -/
def analyzeProfile (catalog : List CourseRow) (p : Profile) :
    Except AnalyzeError MatchResponse :=
  let matched := matchRows catalog p
  if matched.isEmpty then .error .noMatchFound
  else .ok (projectTop matched p.gpa)

/-- Response body of the `/analyze-profile` endpoint. -/
inductive AnalyzeBody where
  | success (r : MatchResponse)
  | failure (error : String)
deriving Repr, DecidableEq

/-- The whole `/analyze-profile` handler (lines 54–92).  `gpaC` is the
result of `float(data.get("gpa", 0))` — `none` when the value is not
coercible to a float (the call raises) — and `budgetC` likewise for
`int(data.get("budget", 0))`.  A coercion failure is caught by the
handler's `except` block, which answers 500 with a generic message
(lines 90–92); it is not a 400. -/
def analyze_profile (catalog : List CourseRow) (personalityRaw : String) (gpaC : Option ℚ)
    (goalRaw : String) (budgetC : Option ℤ) (styleRaw : String) : Nat × AnalyzeBody :=
  match gpaC, budgetC with
  | some gpa, some budget =>
    let p : Profile :=
      { personality := pyUpper personalityRaw
        gpa := gpa
        goal := pyStrip (pyLower goalRaw)
        budget := budget
        style := pyStrip (pyLower styleRaw) }
    match analyzeProfile catalog p with
    | .ok r => (200, .success r)
    | .error e => (e.status, .failure "No close matches found.")
  | _, _ => (500, .failure "Profile analysis failed")

/-- Case-insensitive substring containment, as the spec words it. -/
def ciContains (hay needle : String) : Bool :=
  strContains (pyLower hay) (pyLower needle)

/-- Case-insensitive string equality, as the spec words it. -/
def ciEq (a b : String) : Bool :=
  pyLower a == pyLower b

/-- A JSON-like value, as produced by `response.json()` or found in a
request body. -/
inductive JVal where
  | null
  | bool (b : Bool)
  | num (q : ℚ)
  | str (s : String)
  | arr (elems : List JVal)
  | obj (fields : List (String × JVal))
deriving Repr

/-- Python truthiness of a JSON value: `None`, `False`, `0`, `""`, `[]`
and `{}` are falsy, everything else is truthy. -/
def JVal.truthy : JVal → Bool
  | .null => false
  | .bool b => b
  | .num q => decide (q ≠ 0)
  | .str s => !s.isEmpty
  | .arr elems => !elems.isEmpty
  | .obj fields => !fields.isEmpty

/-- Python `container[key]` for a string key: field lookup on a dict,
`KeyError`/`TypeError` otherwise (JSON objects have distinct keys, so the
first-match lookup is exact). -/
def JVal.getItem (j : JVal) (key : String) : Except String JVal :=
  match j with
  | .obj fields =>
    match fields.lookup key with
    | some v => .ok v
    | none => .error ("KeyError: " ++ key)
  | _ => .error "TypeError: value is not subscriptable by a string"

/-- Python `container[i]` for a nonnegative integer index: list indexing
(or one-character string indexing), `IndexError` when out of range,
`TypeError` otherwise. -/
def JVal.getIndex (j : JVal) (i : ℕ) : Except String JVal :=
  match j with
  | .arr elems =>
    match elems.get? i with
    | some v => .ok v
    | none => .error "IndexError: list index out of range"
  | .str s =>
    match s.data.get? i with
    | some c => .ok (.str (String.mk [c]))
    | none => .error "IndexError: string index out of range"
  | _ => .error "TypeError: value is not subscriptable by an index"

/-- Python `key in container` for a string key: key membership on a dict,
substring test on a string, `TypeError` on the remaining shapes the
handler can reach. -/
def JVal.hasMember (j : JVal) (key : String) : Except String Bool :=
  match j with
  | .obj fields => .ok (fields.lookup key).isSome
  | .str s => .ok (strContains s key)
  | _ => .error "TypeError: argument is not a container"

/-- What the handler sees of the upstream generative-text call once
`requests.post` has returned: the status code, the raw body text, and the
parsed JSON body. -/
structure UpstreamResponse where
  status_code : ℕ
  text : String
  json : JVal

/-- Lines 129–141 of `generate_plan`, inside the `try` block: inspect the
upstream response and build (status, body); any Python exception raised by
the subscript chain surfaces as `.error`. -/
def generatePlanCore (resp : UpstreamResponse) : Except String (ℕ × JVal) := do
  if resp.status_code ≠ 200 then
    return (500, .obj [("error", .str "Gemini API failed"), ("details", .str resp.text)])
  let g := resp.json
  let hasCands ← g.hasMember "candidates"
  let cands ← if hasCands then g.getItem "candidates" else pure .null
  if hasCands && cands.truthy then
    let parts ← (← (← cands.getIndex 0).getItem "content").getItem "parts"
    let usable ←
      if parts.truthy then do
        let p0 ← parts.getIndex 0
        p0.hasMember "text"
      else pure false
    let plan_text ←
      if usable then do
        let p0 ← parts.getIndex 0
        p0.getItem "text"
      else pure (.str "(No content)")
    return (200, .obj [("plan", plan_text)])
  else
    return (500, .obj [("error", .str "No insights from Gemini"), ("raw", g)])

/-- The `/generate-plan` handler from the upstream response onward: the
`except` block (lines 143–145) turns any exception into a generic 500. -/
def generate_plan (resp : UpstreamResponse) : ℕ × JVal :=
  match generatePlanCore resp with
  | .ok result => result
  | .error e => (500, .obj [("error", .str ("Failed to generate plan: " ++ e))])

/-- Python truthiness of `data.get(...)` on a string-valued field:
`None` (absent) and the empty string are falsy. -/
def pyTruthy : Option String → Bool
  | none => false
  | some s => !s.isEmpty

/-- The MIME message `send_email` builds (lines 159–174). -/
structure EmailMessage where
  subject : String
  to_addr : String
  html : String
deriving Repr, DecidableEq

/-- The HTML body template of lines 164–173: the plan text is embedded
verbatim inside a preformatted block. -/
def emailHtml (to_name : Option String) (plan_text exam_type : String) : String :=
  "\n        <html>\n          <body>\n            <p>Hello " ++
    (match to_name with
      | some n => if n.isEmpty then "Student" else n
      | none => "Student") ++
    ",</p>\n            <p>Here is your personalized <b>" ++ exam_type ++
    "</b> plan generated by ED-TECH 🤖</p>\n            <pre style=\"background:#f6f6f6; padding:12px; border:1px solid #ddd;\">" ++
    plan_text ++
    "</pre>\n            <p>– ED-TECH AI Team</p>\n          </body>\n        </html>\n        "

/-- Control flow of the `/send-email` handler up to the point where the
mail relay would be contacted. -/
inductive SendEmailStep where
  | earlyReject (status : ℕ) (error : String)
  | openRelaySession (msg : EmailMessage)
deriving Repr, DecidableEq

/-- Lines 150–176 of `send_email`: read the four fields, reject with 400
when `all([to_email, plan_text, exam_type])` is falsy — before the SMTP
session of line 176 is opened — and otherwise build the message and open
the relay session (the delivery outcome itself is external). -/
def send_email (to_email to_name plan_text exam_type : Option String) : SendEmailStep :=
  if pyTruthy to_email && pyTruthy plan_text && pyTruthy exam_type then
    .openRelaySession
      { subject := "Your AI " ++ (exam_type.getD "") ++ " Plan"
        to_addr := to_email.getD ""
        html := emailHtml to_name (plan_text.getD "") (exam_type.getD "") }
  else
    .earlyReject 400 "Missing email parameters"

/-- The server-assigned timestamp sentinel (`firestore.SERVER_TIMESTAMP`). -/
inductive StoredTimestamp where
  | serverAssigned
deriving Repr, DecidableEq

/-- The record written to the `feedback` collection (lines 194–200). -/
structure FeedbackRecord where
  timestamp : StoredTimestamp
  exam_type : Option JVal
  rating : Option JVal
  comment : Option JVal
  plan_excerpt : String

/-- Python string slice `s[:n]`: the first `n` characters. -/
def pySliceTo (s : String) (n : ℕ) : String :=
  String.mk (s.data.take n)

/-- Lines 194–200 of `submit_feedback`: pass the known fields through
(missing ones stay absent), truncate the plan text to 100 characters, and
stamp the server-assigned timestamp. -/
def submit_feedback (exam_type rating comment : Option JVal) (plan_text : Option String) :
    FeedbackRecord :=
  { timestamp := .serverAssigned
    exam_type := exam_type
    rating := rating
    comment := comment
    plan_excerpt := pySliceTo (plan_text.getD "") 100 }

section TruncLemmas

/-- Cancelling a common positive natural factor in a T-division. -/
theorem tdiv_mul_right_nat (n : ℤ) (d g : ℕ) (hg : g ≠ 0) :
    (n * (g : ℤ)).tdiv ((d * g : ℕ) : ℤ) = n.tdiv (d : ℤ) := by
  have hg' : 0 < g := Nat.pos_of_ne_zero hg
  obtain ⟨m, rfl | rfl⟩ := n.eq_nat_or_neg
  · rw [show ((m : ℤ) * (g : ℤ)) = ((m * g : ℕ) : ℤ) by push_cast; ring,
      ← Int.ofNat_tdiv, ← Int.ofNat_tdiv, Nat.mul_div_mul_right _ _ hg']
  · rw [Int.neg_mul, Int.neg_tdiv, Int.neg_tdiv,
      show ((m : ℤ) * (g : ℤ)) = ((m * g : ℕ) : ℤ) by push_cast; ring,
      ← Int.ofNat_tdiv, ← Int.ofNat_tdiv, Nat.mul_div_mul_right _ _ hg']

/-- `truncQ` of a smart-constructed rational is the T-division of the raw
numerator by the raw denominator. -/
theorem truncQ_mkRat (n : ℤ) (d : ℕ) (hd : d ≠ 0) :
    truncQ (mkRat n d) = n.tdiv (d : ℤ) := by
  rw [← Rat.normalize_eq_mkRat hd]
  obtain ⟨g, hg, hn, hden⟩ := Rat.normalize_num_den' n d hd
  set r := Rat.normalize n d hd with hr
  rw [hn, hden, tdiv_mul_right_nat _ _ _ hg]
  rfl

/-- Evaluation form of `matchScore`: everything is expressed with
computable integer operations on the numerator and denominator. -/
theorem matchScore_eval (q : ℚ) :
    matchScore q = min 100 ((q.num * 10).tdiv q.den) := by
  have h10 : (10 : ℚ) = mkRat 10 1 := rfl
  have hmul : q * 10 = mkRat (q.num * 10) q.den := by
    conv_lhs => rw [← Rat.mkRat_self q, h10]
    rw [Rat.mkRat_mul_mkRat, Nat.mul_one]
  rw [matchScore, hmul, truncQ_mkRat _ _ q.den_nz]

/-- `truncQ` really is truncation toward zero: it agrees with the floor
on nonnegative rationals and with the ceiling on negative ones. -/
theorem truncQ_eq_floor_ceil (q : ℚ) :
    truncQ q = if 0 ≤ q then ⌊q⌋ else ⌈q⌉ := by
  by_cases h : 0 ≤ q
  · rw [if_pos h, Rat.floor_def, truncQ,
      Int.tdiv_eq_ediv (Rat.num_nonneg.mpr h) (Int.ofNat_nonneg q.den)]
  · rw [if_neg h]
    have hq : q < 0 := lt_of_not_le h
    have hnum : 0 ≤ -q.num := by
      have := Rat.num_nonneg (q := -q)
      simp only [Rat.neg_num] at this
      exact this.mpr (by linarith)
    have hceil : ⌈q⌉ = -⌊-q⌋ := by
      conv_lhs => rw [← neg_neg q]
      rw [Int.ceil_neg]
    rw [truncQ, hceil, Rat.floor_def, Rat.neg_num, Rat.neg_den,
      ← Int.tdiv_eq_ediv hnum (Int.ofNat_nonneg q.den), Int.neg_tdiv, neg_neg]

end TruncLemmas

section MatcherLemmas

/-- When the Strict tier is nonempty it is the tier returned. -/
theorem matchRows_strict {catalog : List CourseRow} {p : Profile}
    (h : run_filter catalog p false false ≠ []) :
    matchRows catalog p = run_filter catalog p false false := by
  simp [matchRows, List.isEmpty_eq_false.mpr h]

/-- When Strict is empty and Drop-style is nonempty, Drop-style is returned. -/
theorem matchRows_drop_style {catalog : List CourseRow} {p : Profile}
    (h1 : run_filter catalog p false false = [])
    (h2 : run_filter catalog p true false ≠ []) :
    matchRows catalog p = run_filter catalog p true false := by
  simp [matchRows, h1, List.isEmpty_eq_false.mpr h2]

/-- When the first two tiers are empty, the third tier is returned. -/
theorem matchRows_relax_budget {catalog : List CourseRow} {p : Profile}
    (h1 : run_filter catalog p false false = [])
    (h2 : run_filter catalog p true false = []) :
    matchRows catalog p = run_filter catalog p true true := by
  simp [matchRows, h1, h2]

/-- The rows the matcher returns always come from one of the three tiers,
so they are a subsequence of the catalog: iteration order is preserved. -/
theorem matchRows_sublist (catalog : List CourseRow) (p : Profile) :
    (matchRows catalog p).Sublist catalog := by
  rw [matchRows]
  dsimp only
  split
  · split
    · exact List.filter_sublist catalog
    · exact List.filter_sublist catalog
  · exact List.filter_sublist catalog

/-- Success shape of the matcher when some tier is nonempty. -/
theorem analyzeProfile_of_ne {catalog : List CourseRow} {p : Profile}
    (h : matchRows catalog p ≠ []) :
    analyzeProfile catalog p = .ok (projectTop (matchRows catalog p) p.gpa) := by
  simp [analyzeProfile, List.isEmpty_eq_false.mpr h]

/-- Failure shape of the matcher when every tier is empty. -/
theorem analyzeProfile_of_nil {catalog : List CourseRow} {p : Profile}
    (h : matchRows catalog p = []) :
    analyzeProfile catalog p = .error .noMatchFound := by
  simp [analyzeProfile, h]

/-- A success result always comes from a nonempty tier and carries the
score formula. -/
theorem analyzeProfile_ok_inv {catalog : List CourseRow} {p : Profile} {r : MatchResponse}
    (h : analyzeProfile catalog p = .ok r) :
    matchRows catalog p ≠ [] ∧ r = projectTop (matchRows catalog p) p.gpa := by
  by_cases hm : matchRows catalog p = []
  · rw [analyzeProfile_of_nil hm] at h
    exact absurd h (by simp)
  · rw [analyzeProfile_of_ne hm] at h
    exact ⟨hm, (Except.ok.injEq _ _ ▸ h).symm⟩

end MatcherLemmas

section Claims

/-- C1: for every applicant profile and catalog, the matcher evaluates the
three relaxation tiers (Strict; Drop style; Drop style + relax budget) in
that fixed order, returns the matches of the first tier that yields at
least one row, and if all three tiers yield zero matches it fails with
the domain-level no-match condition (mapped to HTTP 404) — never an empty
success payload. -/
theorem claim_C1_tier_order (catalog : List CourseRow) (p : Profile) :
    (run_filter catalog p false false ≠ [] →
      analyzeProfile catalog p = .ok (projectTop (run_filter catalog p false false) p.gpa))
    ∧ (run_filter catalog p false false = [] → run_filter catalog p true false ≠ [] →
      analyzeProfile catalog p = .ok (projectTop (run_filter catalog p true false) p.gpa))
    ∧ (run_filter catalog p false false = [] → run_filter catalog p true false = [] →
        run_filter catalog p true true ≠ [] →
      analyzeProfile catalog p = .ok (projectTop (run_filter catalog p true true) p.gpa))
    ∧ (run_filter catalog p false false = [] → run_filter catalog p true false = [] →
        run_filter catalog p true true = [] →
      analyzeProfile catalog p = .error .noMatchFound)
    ∧ AnalyzeError.noMatchFound.status = 404
    ∧ (∀ r, analyzeProfile catalog p = .ok r → r.recommended_courses ≠ []) := by
  refine ⟨?_, ?_, ?_, ?_, rfl, ?_⟩
  · intro h1
    have hm := matchRows_strict h1
    rw [analyzeProfile_of_ne (by rw [hm]; exact h1), hm]
  · intro h1 h2
    have hm := matchRows_drop_style h1 h2
    rw [analyzeProfile_of_ne (by rw [hm]; exact h2), hm]
  · intro h1 h2 h3
    have hm := matchRows_relax_budget h1 h2
    rw [analyzeProfile_of_ne (by rw [hm]; exact h3), hm]
  · intro h1 h2 h3
    exact analyzeProfile_of_nil (by rw [matchRows_relax_budget h1 h2]; exact h3)
  · intro r hr
    obtain ⟨hne, hreq⟩ := analyzeProfile_ok_inv hr
    subst hreq
    simp [projectTop, List.take_eq_nil_iff, hne]

/-- C1 witness: a one-row catalog strict-matched by a concrete profile. -/
theorem claim_C1_witness :
    analyzeProfile
        [{ career_goal := "data science", personality_min_gpa := 3, min_budget := 1000,
           max_budget := 5000, learning_style := "visual", recommended_course := "MSDS",
           university := "X", country := "US" }]
        { personality := "INTJ", gpa := 4, goal := "data", budget := 3000, style := "visual" }
      = .ok (projectTop
          (run_filter
            [{ career_goal := "data science", personality_min_gpa := 3, min_budget := 1000,
               max_budget := 5000, learning_style := "visual", recommended_course := "MSDS",
               university := "X", country := "US" }]
            { personality := "INTJ", gpa := 4, goal := "data", budget := 3000, style := "visual" }
            false false)
          ({ personality := "INTJ", gpa := 4, goal := "data", budget := 3000,
             style := "visual" : Profile }).gpa) :=
  (claim_C1_tier_order _ _).1 (by decide)

/-- C2: a catalog row passes the Strict tier if and only if its
career-goal text case-insensitively contains the profile goal, its
minimum GPA is at most the profile GPA, the profile budget lies in the
inclusive budget range, and its learning style case-insensitively equals
the profile style (the profile fields being already normalised to lower
case by the handler). -/
theorem claim_C2_strict_iff (row : CourseRow) (p : Profile)
    (hgoal : pyLower p.goal = p.goal) (hstyle : pyLower p.style = p.style) :
    rowPasses p false false row = true ↔
      (ciContains row.career_goal p.goal = true ∧
       row.personality_min_gpa ≤ p.gpa ∧
       (row.min_budget ≤ (p.budget : ℚ) ∧ (p.budget : ℚ) ≤ row.max_budget) ∧
       ciEq row.learning_style p.style = true) := by
  simp only [rowPasses, ciContains, ciEq, hgoal, hstyle, Bool.false_or,
    Bool.and_eq_true, decide_eq_true_eq, beq_iff_eq]
  tauto

/-- C2 witness: the strict predicate evaluated on a concrete matching row
and normalised profile. -/
theorem claim_C2_witness :
    rowPasses
        { personality := "INTJ", gpa := 4, goal := "data", budget := 3000, style := "visual" }
        false false
        { career_goal := "data science", personality_min_gpa := 3, min_budget := 1000,
          max_budget := 5000, learning_style := "Visual", recommended_course := "MSDS",
          university := "X", country := "US" }
      = true ↔
      (ciContains "data science" "data" = true ∧
       (3 : ℚ) ≤ 4 ∧
       ((1000 : ℚ) ≤ ((3000 : ℤ) : ℚ) ∧ ((3000 : ℤ) : ℚ) ≤ (5000 : ℚ)) ∧
       ciEq "Visual" "visual" = true) :=
  claim_C2_strict_iff _ _ (by decide) (by decide)

/-- C3: when the matcher succeeds, the response is exactly the first
`min(3, number of matching rows)` rows of the first nonempty tier, in
catalog iteration order, projected to course, university and country. -/
theorem claim_C3_selection (catalog : List CourseRow) (p : Profile)
    (h : matchRows catalog p ≠ []) :
    analyzeProfile catalog p = .ok (projectTop (matchRows catalog p) p.gpa)
    ∧ (projectTop (matchRows catalog p) p.gpa).recommended_courses
        = ((matchRows catalog p).take 3).map (fun r => r.recommended_course)
    ∧ (projectTop (matchRows catalog p) p.gpa).top_universities
        = ((matchRows catalog p).take 3).map (fun r => r.university)
    ∧ (projectTop (matchRows catalog p) p.gpa).recommended_countries
        = ((matchRows catalog p).take 3).map (fun r => r.country)
    ∧ ((matchRows catalog p).take 3).length = min 3 (matchRows catalog p).length
    ∧ (matchRows catalog p).Sublist catalog := by
  exact ⟨analyzeProfile_of_ne h, rfl, rfl, rfl,
    List.length_take 3 (matchRows catalog p), matchRows_sublist catalog p⟩

/-- C3 witness: a concrete profile that drop-style-matches one row. -/
theorem claim_C3_witness :
    analyzeProfile
        [{ career_goal := "data science", personality_min_gpa := 3, min_budget := 1000,
           max_budget := 5000, learning_style := "visual", recommended_course := "MSDS",
           university := "X", country := "US" }]
        { personality := "ENTP", gpa := 4, goal := "data", budget := 3000, style := "kinesthetic" }
      = .ok (projectTop
          (matchRows
            [{ career_goal := "data science", personality_min_gpa := 3, min_budget := 1000,
               max_budget := 5000, learning_style := "visual", recommended_course := "MSDS",
               university := "X", country := "US" }]
            { personality := "ENTP", gpa := 4, goal := "data", budget := 3000,
              style := "kinesthetic" })
          ({ personality := "ENTP", gpa := 4, goal := "data", budget := 3000,
             style := "kinesthetic" : Profile }).gpa) :=
  (claim_C3_selection _ _ (by decide)).1

/-- C4: for every success, the returned `match_score` is
`min(100, int(gpa * 10))` — the truncating integer conversion of
`gpa × 10` clamped at 100 — independent of tier and of the number of
matched rows; in particular gpa 7.5 gives 75, gpa 11 gives 100 and gpa 0
gives 0. -/
theorem claim_C4_match_score (catalog : List CourseRow) (p : Profile) (r : MatchResponse)
    (h : analyzeProfile catalog p = .ok r) :
    r.match_score = min 100 (truncQ (p.gpa * 10))
    ∧ matchScore (7.5 : ℚ) = 75 ∧ matchScore 11 = 100 ∧ matchScore 0 = 0 := by
  obtain ⟨-, hreq⟩ := analyzeProfile_ok_inv h
  subst hreq
  refine ⟨rfl, ?_, ?_, ?_⟩
  · rw [show (7.5 : ℚ) = mkRat 75 10 from by
      rw [show (7.5 : ℚ) = Rat.ofScientific 75 true 1 from rfl, Rat.ofScientific_true_def]
      decide]
    rw [matchScore_eval]; decide
  · rw [matchScore_eval]; decide
  · rw [matchScore_eval]; decide

/-- C4 witness: the score formula instantiated on a concrete success. -/
theorem claim_C4_witness :
    (projectTop
        (matchRows
          [{ career_goal := "data science", personality_min_gpa := 3, min_budget := 1000,
             max_budget := 5000, learning_style := "visual", recommended_course := "MSDS",
             university := "X", country := "US" }]
          { personality := "INTJ", gpa := 4, goal := "science", budget := 2000,
            style := "visual" })
        (4 : ℚ)).match_score = min 100 (truncQ ((4 : ℚ) * 10))
    ∧ matchScore (7.5 : ℚ) = 75 ∧ matchScore 11 = 100 ∧ matchScore 0 = 0 :=
  claim_C4_match_score
    [{ career_goal := "data science", personality_min_gpa := 3, min_budget := 1000,
       max_budget := 5000, learning_style := "visual", recommended_course := "MSDS",
       university := "X", country := "US" }]
    { personality := "INTJ", gpa := 4, goal := "science", budget := 2000, style := "visual" }
    _ rfl

/-- C5 counterexample: with a catalog row whose minimum GPA is negative,
a profile with gpa −1 succeeds and its match_score is −10, which is
outside [0, 100]: the score is not clamped below. -/
theorem claim_C5_counterexample :
    analyzeProfile
        [{ career_goal := "data science", personality_min_gpa := -5, min_budget := 1000,
           max_budget := 5000, learning_style := "visual", recommended_course := "MSDS",
           university := "X", country := "US" }]
        { personality := "INTJ", gpa := -1, goal := "data", budget := 3000, style := "visual" }
      = .ok (projectTop
          (matchRows
            [{ career_goal := "data science", personality_min_gpa := -5, min_budget := 1000,
               max_budget := 5000, learning_style := "visual", recommended_course := "MSDS",
               university := "X", country := "US" }]
            { personality := "INTJ", gpa := -1, goal := "data", budget := 3000,
              style := "visual" })
          (-1 : ℚ))
    ∧ (projectTop
          (matchRows
            [{ career_goal := "data science", personality_min_gpa := -5, min_budget := 1000,
               max_budget := 5000, learning_style := "visual", recommended_course := "MSDS",
               university := "X", country := "US" }]
            { personality := "INTJ", gpa := -1, goal := "data", budget := 3000,
              style := "visual" })
          (-1 : ℚ)).match_score = -10
    ∧ ¬(0 ≤ (projectTop
          (matchRows
            [{ career_goal := "data science", personality_min_gpa := -5, min_budget := 1000,
               max_budget := 5000, learning_style := "visual", recommended_course := "MSDS",
               university := "X", country := "US" }]
            { personality := "INTJ", gpa := -1, goal := "data", budget := 3000,
              style := "visual" })
          (-1 : ℚ)).match_score) := by
  have hsc : (projectTop
      (matchRows
        [{ career_goal := "data science", personality_min_gpa := -5, min_budget := 1000,
           max_budget := 5000, learning_style := "visual", recommended_course := "MSDS",
           university := "X", country := "US" }]
        { personality := "INTJ", gpa := -1, goal := "data", budget := 3000,
          style := "visual" })
      (-1 : ℚ)).match_score = -10 := by
    show matchScore (-1 : ℚ) = -10
    rw [matchScore_eval]; decide
  refine ⟨rfl, hsc, ?_⟩
  rw [hsc]; decide

/-- C5 amended: the returned match_score is always clamped above at 100,
and it lies in [0, 100] whenever the profile gpa is nonnegative; for a
negative gpa that still matches, the score can be negative (the code only
clamps the upper end). -/
theorem claim_C5_amended (catalog : List CourseRow) (p : Profile) (r : MatchResponse)
    (h : analyzeProfile catalog p = .ok r) :
    r.match_score ≤ 100 ∧ (0 ≤ p.gpa → 0 ≤ r.match_score ∧ r.match_score ≤ 100) := by
  obtain ⟨-, hreq⟩ := analyzeProfile_ok_inv h
  subst hreq
  have hle : (projectTop (matchRows catalog p) p.gpa).match_score ≤ 100 :=
    min_le_left 100 (truncQ (p.gpa * 10))
  refine ⟨hle, fun hg => ⟨?_, hle⟩⟩
  have h0 : (0 : ℚ) ≤ p.gpa * 10 := mul_nonneg hg (by norm_num)
  have hnum : 0 ≤ truncQ (p.gpa * 10) := by
    rw [truncQ]
    exact Int.tdiv_nonneg (Rat.num_nonneg.mpr h0) (Int.ofNat_nonneg _)
  exact le_min (by norm_num) hnum

/-- C5 witness: the amended bounds instantiated on a concrete success
with nonnegative gpa. -/
theorem claim_C5_witness :
    (projectTop
        (matchRows
          [{ career_goal := "law", personality_min_gpa := 2, min_budget := 500,
             max_budget := 4000, learning_style := "auditory", recommended_course := "LLB",
             university := "Y", country := "UK" }]
          { personality := "ENFP", gpa := 3, goal := "law", budget := 1000,
            style := "auditory" })
        (3 : ℚ)).match_score ≤ 100
    ∧ (0 ≤ (3 : ℚ) →
        0 ≤ (projectTop
            (matchRows
              [{ career_goal := "law", personality_min_gpa := 2, min_budget := 500,
                 max_budget := 4000, learning_style := "auditory", recommended_course := "LLB",
                 university := "Y", country := "UK" }]
              { personality := "ENFP", gpa := 3, goal := "law", budget := 1000,
                style := "auditory" })
            (3 : ℚ)).match_score
        ∧ (projectTop
            (matchRows
              [{ career_goal := "law", personality_min_gpa := 2, min_budget := 500,
                 max_budget := 4000, learning_style := "auditory", recommended_course := "LLB",
                 university := "Y", country := "UK" }]
              { personality := "ENFP", gpa := 3, goal := "law", budget := 1000,
                style := "auditory" })
            (3 : ℚ)).match_score ≤ 100) :=
  claim_C5_amended
    [{ career_goal := "law", personality_min_gpa := 2, min_budget := 500,
       max_budget := 4000, learning_style := "auditory", recommended_course := "LLB",
       university := "Y", country := "UK" }]
    { personality := "ENFP", gpa := 3, goal := "law", budget := 1000, style := "auditory" }
    _ rfl

/-- C6 counterexample: a request whose gpa is not coercible is answered
with status 500 and the generic failure body, not with 400. -/
theorem claim_C6_counterexample :
    analyze_profile [] "INTJ" none "data" (some 3000) "visual"
      = (500, .failure "Profile analysis failed")
    ∧ (analyze_profile [] "INTJ" none "data" (some 3000) "visual").1 ≠ 400 :=
  ⟨rfl, by decide⟩

/-- C6 amended: a request whose gpa or budget is not coercible to a
number fails inside the handler's catch-all `except` block, which answers
HTTP 500 with the generic "Profile analysis failed" body (the
internal-error condition), not a 400 malformed-input condition. -/
theorem claim_C6_amended (catalog : List CourseRow) (personalityRaw goalRaw styleRaw : String)
    (gpaC : Option ℚ) (budgetC : Option ℤ) (h : gpaC = none ∨ budgetC = none) :
    analyze_profile catalog personalityRaw gpaC goalRaw budgetC styleRaw
      = (500, .failure "Profile analysis failed") := by
  rcases h with rfl | rfl
  · cases budgetC <;> rfl
  · cases gpaC <;> rfl

/-- C6 witness: the amended behaviour at a concrete non-coercible budget. -/
theorem claim_C6_witness :
    analyze_profile [] "ESTJ" (some 3) "medicine" none "visual"
      = (500, .failure "Profile analysis failed") :=
  claim_C6_amended [] "ESTJ" "medicine" "visual" (some 3) none (Or.inr rfl)

/-- C8: a `/send-email` request missing the recipient address, the plan
text, or the label is rejected with 400 "Missing email parameters", and
the rejection is distinct from opening a mail-relay session: no network
delivery is attempted. -/
theorem claim_C8_missing_parameters (a b c d : Option String) :
    send_email none b c d = .earlyReject 400 "Missing email parameters"
    ∧ send_email a b none d = .earlyReject 400 "Missing email parameters"
    ∧ send_email a b c none = .earlyReject 400 "Missing email parameters"
    ∧ ∀ m : EmailMessage,
        SendEmailStep.earlyReject 400 "Missing email parameters" ≠ .openRelaySession m := by
  refine ⟨?_, ?_, ?_, ?_⟩ <;> simp [send_email, pyTruthy]

/-- C9: the stored feedback `plan_excerpt` is at most 100 characters,
whatever the submitted plan text is. -/
theorem claim_C9_excerpt_bounded (exam rating comment : Option JVal)
    (plan_text : Option String) :
    (submit_feedback exam rating comment plan_text).plan_excerpt.length ≤ 100 := by
  have hlen : (submit_feedback exam rating comment plan_text).plan_excerpt.length
      = ((plan_text.getD "").data.take 100).length := rfl
  rw [hlen, List.length_take]
  exact Nat.min_le_left _ _

/-- C10: a `/send-email` field that is present but empty is rejected with
the same 400 missing-parameters condition as an absent field: the check
tests truthiness, and an empty string is falsy exactly like `None`. -/
theorem claim_C10_empty_equals_absent (a b c d : Option String) :
    (send_email (some "") b c d = .earlyReject 400 "Missing email parameters"
      ∧ send_email (some "") b c d = send_email none b c d)
    ∧ (send_email a b (some "") d = .earlyReject 400 "Missing email parameters"
      ∧ send_email a b (some "") d = send_email a b none d)
    ∧ (send_email a b c (some "") = .earlyReject 400 "Missing email parameters"
      ∧ send_email a b c (some "") = send_email a b c none) := by
  refine ⟨⟨?_, ?_⟩, ⟨?_, ?_⟩, ⟨?_, ?_⟩⟩ <;>
    simp [send_email, pyTruthy, show ("" : String).isEmpty = true from rfl]

/-- Reduction of a bind on an `Except` success (the handler's `do` chain). -/
theorem except_bind_ok {ε α β : Type} (a : α) (f : α → Except ε β) :
    (Except.ok a : Except ε α) >>= f = f a := rfl

/-- `pure` on `Except` is `Except.ok`. -/
theorem except_pure_eq {ε α : Type} (a : α) : (pure a : Except ε α) = Except.ok a := rfl

/-- C7 counterexample: a 200 upstream response whose candidate has an
empty `parts` list — so there is no usable part text — is answered with a
200 success and the placeholder plan "(No content)", not with the
no-content error condition. -/
theorem claim_C7_counterexample :
    generate_plan
        { status_code := 200, text := "",
          json := .obj [("candidates",
            .arr [.obj [("content", .obj [("parts", .arr [])])]])] }
      = (200, .obj [("plan", .str "(No content)")])
    ∧ (generate_plan
        { status_code := 200, text := "",
          json := .obj [("candidates",
            .arr [.obj [("content", .obj [("parts", .arr [])])]])] }).1 ≠ 500 :=
  ⟨rfl, by decide⟩

/-- C7 amended: the no-content error (500, with the raw upstream payload)
is produced exactly when the 200 response has no `candidates` key or a
falsy `candidates` value; when candidates are present and nonempty but
the parts carry no usable text, the handler instead returns a 200 success
with the placeholder text "(No content)". -/
theorem claim_C7_amended (resp : UpstreamResponse) (fields : List (String × JVal))
    (hs : resp.status_code = 200) (hj : resp.json = .obj fields)
    (hc : ∀ v, fields.lookup "candidates" = some v → v.truthy = false) :
    generate_plan resp
      = (500, .obj [("error", .str "No insights from Gemini"), ("raw", resp.json)]) := by
  unfold generate_plan generatePlanCore
  rw [hs, hj]
  cases e : fields.lookup "candidates" with
  | none => simp [JVal.hasMember, JVal.getItem, e, except_bind_ok, except_pure_eq]
  | some v =>
    have hv := hc v e
    simp [JVal.hasMember, JVal.getItem, e, hv, except_bind_ok, except_pure_eq]

/-- C7 witness: a 200 response with no `candidates` key gets the
no-content error with the raw payload attached. -/
theorem claim_C7_witness :
    generate_plan { status_code := 200, text := "", json := .obj [] }
      = (500, .obj [("error", .str "No insights from Gemini"), ("raw", .obj [])]) :=
  claim_C7_amended { status_code := 200, text := "", json := .obj [] } []
    rfl rfl (fun _ h => Option.noConfusion h)

/-- C8 witness: a concrete request with the recipient absent is rejected. -/
theorem claim_C8_witness :
    send_email none (some "Alice") (some "plan body") (some "GRE")
      = .earlyReject 400 "Missing email parameters" :=
  (claim_C8_missing_parameters (some "a@b.c") (some "Alice") (some "plan body")
    (some "GRE")).1

/-- C9 witness: a concrete long submission keeps the excerpt within 100. -/
theorem claim_C9_witness :
    (submit_feedback (some (.str "GRE")) (some (.num 5)) (some (.str "helpful"))
        (some "a long plan text")).plan_excerpt.length ≤ 100 :=
  claim_C9_excerpt_bounded (some (.str "GRE")) (some (.num 5)) (some (.str "helpful"))
    (some "a long plan text")

/-- C10 witness: a concrete request with an empty plan text is rejected
exactly like an absent one. -/
theorem claim_C10_witness :
    send_email (some "a@b.c") (some "Alice") (some "") (some "GRE")
      = .earlyReject 400 "Missing email parameters"
    ∧ send_email (some "a@b.c") (some "Alice") (some "") (some "GRE")
      = send_email (some "a@b.c") (some "Alice") none (some "GRE") :=
  (claim_C10_empty_equals_absent (some "a@b.c") (some "Alice") (some "x") (some "GRE")).2.1

end Claims

end EdTech
